import Mathlib

/-!
Shallow embedding of the ACME Order reconciliation engine of the
cert-manager repository, file `pkg/controller/acmeorders/sync.go`.

Modelling conventions:
* Go `error` values are the inductive `GoError`; a nil error is `Option.none`.
* Fallible Go functions returning `(T, error)` become `Except GoError T`.
* The ACME client (`acmecl.Interface`) and the collaborators reached through
  the `Controller` struct (issuer lookup, challenge lister, challenge and
  order writers) are records of pure response functions (`AcmeClient`, `Env`).
* Every external interaction is recorded as a `CallEvent`; each function
  that performs external calls returns its trace of events alongside its
  result, so that claims about which calls happen are statable.
* `time.Now()` is an explicit `now : Nat` parameter.
* The `State` string type of the external API package and the
  `acme.IsFinalState` and `acme.IsFailureState` predicates of the external
  `pkg/acme` package are not under `src/`; `State` constants are modelled
  from the spec as distinct strings, and the two classification predicates
  are taken as parameters (`isFinal`, `iFail`) of every function that
  consults them, matching the spec, which calls them external predicate
  contracts.
* Go map iteration order (for `specsToCreate`) is unspecified; the model
  iterates in ascending index order, which is the insertion order here.
-/

namespace CertManager

/-- Go error values: a plain message (`fmt.Errorf` without a wrapped error),
a wrapping error (`fmt.Errorf` with a trailing wrapped error), or a
`utilerrors` aggregate. -/
inductive GoError where
  | msg (s : String)
  | wrap (s : String) (e : GoError)
  | aggregate (es : List GoError)

/-- `utilerrors.NewAggregate`: nil entries are dropped; an empty (filtered)
list yields a nil error, otherwise an aggregate of the remaining errors. -/
def newAggregate (errs : List (Option GoError)) : Option GoError :=
  match errs.filterMap id with
  | [] => none
  | es => some (GoError.aggregate es)

/-- The `cmapi.State` string type of the external API package. -/
abbrev State := String

namespace cmapi

/-- Modelled from the spec: the `State` constants of the external
`v1alpha1` API package are not under `src/`; the spec lists the states
empty/unset, Pending, Processing, Ready, Valid, Invalid, Failed, Expired,
Unknown, so the constants are modelled as distinct strings. -/
def Unknown : State := "unknown"

def Pending : State := "pending"

def Processing : State := "processing"

def Ready : State := "ready"

def Valid : State := "valid"

def Invalid : State := "invalid"

def Failed : State := "failed"

def Expired : State := "expired"

end cmapi

/-- One challenge option offered inside an ACME authorization
(`acmeapi.Challenge`): type, URL and token. -/
structure AcmeChallenge where
  type : String
  url : String
  token : String
deriving DecidableEq

/-- The identifier of an ACME authorization (`acmeapi.AuthzID`). -/
structure AcmeIdentifier where
  value : String
deriving DecidableEq

/-- An ACME authorization (`acmeapi.Authorization`): identifier, wildcard
flag, URL, and the list of offered challenge options. -/
structure Authorization where
  identifier : AcmeIdentifier
  wildcard : Bool
  url : String
  challenges : List AcmeChallenge
deriving DecidableEq

/-- An ACME order as returned by the server (`acmeapi.Order`): status
string, URLs and the list of authorization URLs. -/
structure AcmeOrder where
  url : String
  status : String
  finalizeURL : String
  certificateURL : String
  authorizations : List String
deriving DecidableEq

/-- A solver configuration (`cmapi.SolverConfig`). The code only tests the
HTTP01 and DNS01 pointers for nil-ness, so their payloads are modelled as
`Unit`. -/
structure SolverConfig where
  http01 : Option Unit
  dns01 : Option Unit
deriving DecidableEq

/-- One entry of `Order.Spec.Config` (`cmapi.DomainSolverConfig`): a list of
domain patterns mapped to a solver configuration. -/
structure DomainSolverConfig where
  domains : List String
  solverConfig : SolverConfig
deriving DecidableEq

/-- The ACME section of an issuer spec (`issuer.GetSpec().ACME`). The code
only tests the HTTP01 and DNS01 capability pointers for nil-ness. -/
structure AcmeIssuerSpec where
  http01 : Option Unit
  dns01 : Option Unit
deriving DecidableEq

/-- A generic issuer (`cmapi.GenericIssuer`): its object name and its
optional ACME spec section. -/
structure GenericIssuer where
  name : String
  acme : Option AcmeIssuerSpec
deriving DecidableEq

/-- `cmapi.ChallengeSpec`: the planned challenge produced by the spec
builder. The issuer reference is modelled by its name. -/
structure ChallengeSpec where
  authzURL : String
  type : String
  url : String
  dnsName : String
  token : String
  key : String
  config : SolverConfig
  wildcard : Bool
  issuerRef : String
deriving DecidableEq

/-- `cmapi.OrderStatus`: the engine-owned status block of an Order. The
failure timestamp is an optional instant (`Nat`). -/
structure OrderStatus where
  url : String
  finalizeURL : String
  certificateURL : String
  state : State
  challenges : List ChallengeSpec
  failureTime : Option Nat
deriving DecidableEq

/-- The empty status block a fresh Order starts with. -/
def emptyStatus : OrderStatus :=
  { url := "", finalizeURL := "", certificateURL := "", state := "",
    challenges := [], failureTime := none }

/-- `cmapi.OrderSpec`: the user-supplied immutable spec of an Order. The
CSR bytes are modelled as a `String`; the issuer reference by its name. -/
structure OrderSpec where
  dnsNames : List String
  commonName : String
  csr : String
  issuerRef : String
  config : List DomainSolverConfig
deriving DecidableEq

/-- `cmapi.Order`: name, namespace, spec, status. -/
structure Order where
  name : String
  ns : String
  spec : OrderSpec
  status : OrderStatus
deriving DecidableEq

/-- `cmapi.Challenge`: the persisted challenge sub-resource. Labels are an
association list; the owner reference is modelled by the owning order
name; the status is just its `State`. -/
structure Challenge where
  name : String
  labels : List (String × String)
  ownerOrder : String
  spec : ChallengeSpec
  status : State
deriving DecidableEq

/-- One external interaction performed during a reconciliation. -/
inductive CallEvent where
  | getGenericIssuer (ref ns : String)
  | clientForIssuer (issuerName : String)
  | createOrderCall (identifiers : List String)
  | getAuthorization (url : String)
  | http01Response (token : String)
  | dns01Record (token : String)
  | getOrder (url : String)
  | finalizeOrder (url : String)
  | listChallenges (ns orderName : String)
  | createChallenge (ch : Challenge)
  | updateOrder (st : OrderStatus)
deriving DecidableEq

/-- The ACME client contract (`acmecl.Interface`), as a record of pure
response functions. `FinalizeOrder` discards its certificate payload in
the code, so the payload is `Unit`. -/
structure AcmeClient where
  createOrder : List String → Except GoError AcmeOrder
  getOrder : String → Except GoError AcmeOrder
  getAuthorization : String → Except GoError Authorization
  finalizeOrder : String → String → Except GoError Unit
  http01ChallengeResponse : String → Except GoError String
  dns01ChallengeRecord : String → Except GoError String

/-- The collaborators reached through the `Controller` struct: issuer
lookup (`c.helper.GetGenericIssuer`), ACME client construction
(`acmeHelper.ClientForIssuer`, which reads secrets), the challenge lister,
the challenge writer and the order status writer. -/
structure Env where
  getGenericIssuer : String → String → Except GoError GenericIssuer
  clientForIssuer : GenericIssuer → Except GoError AcmeClient
  listChallenges : String → String → Except GoError (List Challenge)
  createChallenge : String → Challenge → Except GoError Challenge
  updateOrder : Order → Option GoError

/-- Insert a string into a sorted duplicate-free list, keeping it sorted
and duplicate-free. -/
def insertSorted (x : String) : List String → List String
  | [] => [x]
  | y :: ys =>
    if x = y then y :: ys
    else if x < y then x :: y :: ys
    else y :: insertSorted x ys

/-- `sets.NewString(xs...).List()`: the sorted duplicate-free enumeration
of a string set. -/
def stringSetList (xs : List String) : List String :=
  xs.foldl (fun acc x => insertSorted x acc) []

/-- The identifier set built by `createOrder`: the DNS names plus, when
non-empty, the common name, enumerated sorted and de-duplicated. -/
def orderIdentifiers (o : Order) : List String :=
  stringSetList (o.spec.dnsNames ++ (if o.spec.commonName = "" then [] else [o.spec.commonName]))

/-- The inner scan of `solverConfigurationForAuthorization`: walk the
configured entries in order and return the solver configuration of the
first entry whose domain list contains the key. -/
def findSolver (domainToFind : String) : List DomainSolverConfig → Option SolverConfig
  | [] => none
  | d :: rest =>
    if d.domains.contains domainToFind then some d.solverConfig
    else findSolver domainToFind rest

/-- `solverConfigurationForAuthorization`: compute the lookup key (the
identifier value, prefixed with a wildcard marker when the authorization
is a wildcard one) and scan the configured entries in order. -/
def solverConfigurationForAuthorization (cfgs : List DomainSolverConfig) (authz : Authorization) :
    Except GoError SolverConfig :=
  let domainToFind := if authz.wildcard then "*." ++ authz.identifier.value else authz.identifier.value
  match findSolver domainToFind cfgs with
  | some c => .ok c
  | none => .error (.msg ("solver configuration for domain " ++ domainToFind ++
      " not found. Ensure you have configured a challenge mechanism using the certificate.spec.acme.config field"))

/-- The per-option guard of the selection loop in
`challengeSpecForAuthorization`: the option type is http-01 with HTTP01
enabled both in the matched solver configuration and in the issuer ACME
capabilities, or likewise for dns-01. -/
def challengeUsable (cfg : SolverConfig) (acmeSpec : AcmeIssuerSpec) (ch : AcmeChallenge) : Bool :=
  (ch.type = "http-01" && cfg.http01.isSome && acmeSpec.http01.isSome)
  || (ch.type = "dns-01" && cfg.dns01.isSome && acmeSpec.dns01.isSome)

/-- The selection loop of `challengeSpecForAuthorization`: walk the offered
options in order, overwriting the selection with every usable option, so
the last usable option wins; `none` when no option is usable. -/
def selectChallenge (cfg : SolverConfig) (acmeSpec : AcmeIssuerSpec)
    (chs : List AcmeChallenge) : Option AcmeChallenge :=
  chs.foldl (fun acc ch => if challengeUsable cfg acmeSpec ch then some ch else acc) none

/-- `keyForChallenge`: dispatch on the challenge type to the corresponding
proof-value computation of the client; any other type yields the
unsupported-challenge-type error. Returns its call trace alongside the
result. -/
def keyForChallenge (cl : AcmeClient) (challenge : AcmeChallenge) :
    List CallEvent × Except GoError String :=
  if challenge.type = "http-01" then
    ([.http01Response challenge.token], cl.http01ChallengeResponse challenge.token)
  else if challenge.type = "dns-01" then
    ([.dns01Record challenge.token], cl.dns01ChallengeRecord challenge.token)
  else
    ([], .error (.msg ("unsupported challenge type " ++ challenge.type)))

/-- `challengeSpecForAuthorization`: look up the solver configuration for
the authorization, require an ACME issuer spec, select a challenge option
(last usable one wins), compute its proof value, and assemble the
`ChallengeSpec`. -/
def challengeSpecForAuthorization (cl : AcmeClient) (issuer : GenericIssuer)
    (o : Order) (authz : Authorization) : List CallEvent × Except GoError ChallengeSpec :=
  match solverConfigurationForAuthorization o.spec.config authz with
  | .error e => ([], .error e)
  | .ok cfg =>
    match issuer.acme with
    | none => ([], .error (.msg ("issuer " ++ issuer.name ++
        " is not configured as an ACME Issuer. Cannot be used for creating ACME orders")))
    | some acmeSpec =>
      let domain := authz.identifier.value
      match selectChallenge cfg acmeSpec authz.challenges with
      | none => ([], .error (.msg ("ACME server does not allow selected challenge type or no provider is configured for domain " ++ domain)))
      | some challenge =>
        let kr := keyForChallenge cl challenge
        match kr.2 with
        | .error e => (kr.1, .error e)
        | .ok key =>
          (kr.1, .ok { authzURL := authz.url, type := challenge.type, url := challenge.url,
                       dnsName := domain, token := challenge.token, key := key, config := cfg,
                       wildcard := authz.wildcard, issuerRef := o.spec.issuerRef })

/-- `setOrderState`: set the `State` field; when the new state is classed
as a failure state by the external predicate, overwrite the failure
timestamp with the current time. -/
def setOrderState (iFail : State → Bool) (now : Nat) (o : OrderStatus) (s : State) : OrderStatus :=
  let o := { o with state := s }
  if iFail o.state then { o with failureTime := some now } else o

/-- `setOrderStatus`: project an ACME order onto the status block, setting
the state (the raw server status string, cast verbatim) and the URLs. -/
def setOrderStatus (iFail : State → Bool) (now : Nat) (o : OrderStatus) (acmeOrder : AcmeOrder) :
    OrderStatus :=
  let o := setOrderState iFail now o acmeOrder.status
  { o with url := acmeOrder.url, finalizeURL := acmeOrder.finalizeURL,
           certificateURL := acmeOrder.certificateURL }

/-- `syncOrderStatus`: fail when the order URL is blank, otherwise fetch
the live order by URL and project it onto the status block. -/
def syncOrderStatus (iFail : State → Bool) (now : Nat) (cl : AcmeClient) (st : OrderStatus) :
    List CallEvent × OrderStatus × Option GoError :=
  if st.url = "" then
    ([], st, some (.msg "order URL is blank - order has not been created yet"))
  else
    match cl.getOrder st.url with
    | .error e => ([.getOrder st.url], st, some e)
    | .ok acmeOrder => ([.getOrder st.url], setOrderStatus iFail now st acmeOrder, none)

/-- `challengeLabelsForOrder`: the label set attached to every Challenge of
an Order. -/
def challengeLabelsForOrder (o : Order) : List (String × String) :=
  [("acme.cert-manager.io/order-name", o.name)]

/-- `buildChallenge`: assemble the Challenge resource for index `i` of an
Order, named with the order name and the index, labelled for selector
lookup, owned by the Order. -/
def buildChallenge (i : Nat) (o : Order) (chalSpec : ChallengeSpec) : Challenge :=
  { name := o.name ++ "-" ++ toString i, labels := challengeLabelsForOrder o,
    ownerOrder := o.name, spec := chalSpec, status := "" }

/-- The challenge-creation selection loop of `Sync` (building
`specsToCreate`), with the running index made explicit: include each
planned spec in turn, but stop the whole scan at the first planned spec
for which some existing Challenge has the same DNS name. -/
def challengesToCreateGo (existing : List Challenge) : Nat → List ChallengeSpec → List (Nat × ChallengeSpec)
  | _, [] => []
  | i, s :: rest =>
    if existing.any (fun ch => ch.spec.dnsName = s.dnsName) then []
    else (i, s) :: challengesToCreateGo existing (i + 1) rest

/-- The indexed specs `Sync` selects for creation, scanning the planned
list from index 0. -/
def challengesToCreate (planned : List ChallengeSpec) (existing : List Challenge) :
    List (Nat × ChallengeSpec) :=
  challengesToCreateGo existing 0 planned

/-- The challenge-creation loop of `Sync`: attempt to create every selected
spec, collecting the failures instead of stopping, and collecting the
created resources. Returns (trace, created, errors). -/
def createChallengesLoop (env : Env) (o : Order) :
    List (Nat × ChallengeSpec) → List CallEvent × List Challenge × List GoError
  | [] => ([], [], [])
  | (i, spec) :: rest =>
    let ch := buildChallenge i o spec
    let r := createChallengesLoop env o rest
    match env.createChallenge o.ns ch with
    | .error e => (.createChallenge ch :: r.1, r.2.1, e :: r.2.2)
    | .ok created => (.createChallenge ch :: r.1, created :: r.2.1, r.2.2)

/-- The authorization loop of `createOrder`: for each authorization URL in
order, fetch the authorization (propagating its error raw) and build its
challenge spec (wrapping its error); the whole list fails at the first
failure. -/
def buildChals (cl : AcmeClient) (issuer : GenericIssuer) (o : Order) :
    List String → List CallEvent × Except GoError (List ChallengeSpec)
  | [] => ([], .ok [])
  | url :: rest =>
    match cl.getAuthorization url with
    | .error e => ([.getAuthorization url], .error e)
    | .ok authz =>
      let cs := challengeSpecForAuthorization cl issuer o authz
      match cs.2 with
      | .error e =>
        (.getAuthorization url :: cs.1, .error (.wrap "Error constructing Challenge resource for Authorization" e))
      | .ok spec =>
        let r := buildChals cl issuer o rest
        (.getAuthorization url :: cs.1 ++ r.1,
         match r.2 with
         | .error e => .error e
         | .ok specs => .ok (spec :: specs))

/-- `createOrder`: refuse to recreate an order whose URL is set; otherwise
create the remote order for the identifier set, project the returned order
onto the status, then fetch every authorization in order and build its
challenge spec; only when all succeed is `Status.Challenges` assigned. -/
def createOrder (iFail : State → Bool) (now : Nat) (cl : AcmeClient)
    (issuer : GenericIssuer) (o : Order) : List CallEvent × OrderStatus × Option GoError :=
  if o.status.url = "" then
    let ids := orderIdentifiers o
    match cl.createOrder ids with
    | .error e => ([.createOrderCall ids], o.status, some (.wrap "error creating new order" e))
    | .ok acmeOrder =>
      let st := setOrderStatus iFail now o.status acmeOrder
      let r := buildChals cl issuer o acmeOrder.authorizations
      match r.2 with
      | .error e => (.createOrderCall ids :: r.1, st, some e)
      | .ok chals => (.createOrderCall ids :: r.1, { st with challenges := chals }, none)
  else
    ([], o.status, some (.msg ("refusing to recreate a new order for Order " ++ o.name ++
      ". Please create a new Order resource to initiate a new order")))

/-- The Pending/Processing branch of `Sync`: list the existing Challenges
of the order, create the selected missing ones (aggregating creation
failures), then either wait (some challenge still active and none failed)
or re-sync the order status from the ACME server. -/
def pendingBranch (iFail : State → Bool) (now : Nat) (env : Env) (cl : AcmeClient) (o : Order) :
    List CallEvent × OrderStatus × Option GoError :=
  let t0 := [CallEvent.listChallenges o.ns o.name]
  match env.listChallenges o.ns o.name with
  | .error e => (t0, o.status, some e)
  | .ok existing =>
    let specsToCreate := challengesToCreate o.status.challenges existing
    let cr := createChallengesLoop env o specsToCreate
    let t1 := t0 ++ cr.1
    let existingChallenges := existing ++ cr.2.1
    match newAggregate (cr.2.2.map some) with
    | some e => (t1, o.status, some (.wrap "error ensuring Challenge resources for Order" e))
    | none =>
      let recheckOrderStatus :=
        !(existingChallenges.any fun ch => ch.status = cmapi.Pending || ch.status = cmapi.Processing)
      let anyChallengesFailed :=
        existingChallenges.any fun ch => ch.status = cmapi.Failed || ch.status = cmapi.Expired
      if !recheckOrderStatus && !anyChallengesFailed then
        (t1, o.status, none)
      else
        let r := syncOrderStatus iFail now cl o.status
        (t1 ++ r.1, r.2.1, r.2.2)

/-- The body of `Sync` before the deferred status-update handler: resolve
the issuer and the ACME client, then dispatch on the order status: empty
URL creates the order; a terminal state is a no-op; Unknown re-syncs and
then forces a retry error; Ready finalizes then always re-syncs; Pending
and Processing reconcile challenges; any other state is rejected. -/
def syncBody (isFinal iFail : State → Bool) (now : Nat) (env : Env) (o : Order) :
    List CallEvent × OrderStatus × Option GoError :=
  let t0 := [CallEvent.getGenericIssuer o.spec.issuerRef o.ns]
  match env.getGenericIssuer o.spec.issuerRef o.ns with
  | .error e => (t0, o.status, some (.wrap ("error reading (cluster)issuer " ++ o.spec.issuerRef) e))
  | .ok genericIssuer =>
    let t1 := t0 ++ [CallEvent.clientForIssuer genericIssuer.name]
    match env.clientForIssuer genericIssuer with
    | .error e => (t1, o.status, some e)
    | .ok cl =>
      if o.status.url = "" then
        let r := createOrder iFail now cl genericIssuer o
        (t1 ++ r.1, r.2.1, r.2.2)
      else if isFinal o.status.state then
        (t1, o.status, none)
      else if o.status.state = cmapi.Unknown then
        let r := syncOrderStatus iFail now cl o.status
        match r.2.2 with
        | some e => (t1 ++ r.1, r.2.1, some e)
        | none => (t1 ++ r.1, r.2.1,
            some (.msg "updated unknown order state. Retrying processing after applying back-off"))
      else if o.status.state = cmapi.Ready then
        let finRes := cl.finalizeOrder o.status.finalizeURL o.spec.csr
        let r := syncOrderStatus iFail now cl o.status
        let t2 := t1 ++ [CallEvent.finalizeOrder o.status.finalizeURL] ++ r.1
        match r.2.2 with
        | some eU => (t2, r.2.1, some (.wrap "error syncing order status" eU))
        | none =>
          match finRes with
          | .error e => (t2, r.2.1, some (.wrap "error finalizing order" e))
          | .ok _ => (t2, r.2.1, none)
      else if o.status.state = cmapi.Pending ∨ o.status.state = cmapi.Processing then
        let r := pendingBranch iFail now env cl o
        (t1 ++ r.1, r.2.1, r.2.2)
      else
        (t1, o.status, some (.msg ("unknown order state " ++ o.status.state)))

/-- `Sync`: run the body on a private copy, then the deferred handler: when
the status changed, issue the store update; when the domain error is
non-nil it is aggregated with the update error, otherwise the domain nil
result is kept as is. -/
def Sync (isFinal iFail : State → Bool) (now : Nat) (env : Env) (o : Order) :
    List CallEvent × OrderStatus × Option GoError :=
  let r := syncBody isFinal iFail now env o
  if o.status = r.2.1 then r
  else
    let updateErr := env.updateOrder { o with status := r.2.1 }
    let tr := r.1 ++ [CallEvent.updateOrder r.2.1]
    match r.2.2 with
    | none => (tr, r.2.1, none)
    | some e => (tr, r.2.1, newAggregate [some e, updateErr])

/-! ### Concrete fixtures used by closed instances, counterexamples and witnesses -/

/-- A concrete instantiation of the external terminal-state predicate
contract (`acme.IsFinalState`). -/
def terminalPred : State → Bool := fun s =>
  s == cmapi.Valid || s == cmapi.Invalid || s == cmapi.Failed || s == cmapi.Expired

/-- A concrete instantiation of the external failure-state predicate
contract (`acme.IsFailureState`). -/
def failurePred : State → Bool := fun s =>
  s == cmapi.Failed || s == cmapi.Invalid || s == cmapi.Expired

/-- A solver configuration with both mechanisms enabled. -/
def solverBoth : SolverConfig := { http01 := some (), dns01 := some () }

/-- A test issuer with both ACME capabilities enabled. -/
def c1Issuer : GenericIssuer :=
  { name := "letsencrypt", acme := some { http01 := some (), dns01 := some () } }

/-- A test ACME client whose proof-value computations succeed. -/
def c1Client : AcmeClient :=
  { createOrder := fun _ => .error (.msg "unused"),
    getOrder := fun _ => .error (.msg "unused"),
    getAuthorization := fun _ => .error (.msg "unused"),
    finalizeOrder := fun _ _ => .error (.msg "unused"),
    http01ChallengeResponse := fun tok => .ok (tok ++ ".key-auth"),
    dns01ChallengeRecord := fun tok => .ok ("txt-" ++ tok) }

/-- A fresh test Order enabling both mechanisms for example.com. -/
def c1Order : Order :=
  { name := "order-1", ns := "default",
    spec := { dnsNames := ["example.com"], commonName := "", csr := "csr",
              issuerRef := "letsencrypt",
              config := [{ domains := ["example.com"], solverConfig := solverBoth }] },
    status := emptyStatus }

/-- A dns-01 challenge option. -/
def dnsOption : AcmeChallenge :=
  { type := "dns-01", url := "https://acme.example/chal/dns", token := "tok-dns" }

/-- An http-01 challenge option. -/
def httpOption : AcmeChallenge :=
  { type := "http-01", url := "https://acme.example/chal/http", token := "tok-http" }

/-- An authorization offering dns-01 then http-01, in that server order. -/
def c1Authz : Authorization :=
  { identifier := { value := "example.com" }, wildcard := false,
    url := "https://acme.example/authz/1", challenges := [dnsOption, httpOption] }

/-- The challenge spec the builder is expected to produce for `c1Authz`. -/
def c1ExpectedSpec : ChallengeSpec :=
  { authzURL := "https://acme.example/authz/1", type := "http-01",
    url := "https://acme.example/chal/http", dnsName := "example.com", token := "tok-http",
    key := "tok-http.key-auth", config := solverBoth, wildcard := false,
    issuerRef := "letsencrypt" }

/-- The call trace of the successful spec build for `c1Authz`. -/
def c1Trace : List CallEvent := [CallEvent.http01Response "tok-http"]

/-- A status block already in the Failed state with an old failure time. -/
def failedStatus : OrderStatus :=
  { emptyStatus with state := cmapi.Failed, failureTime := some 0 }

/-! ### Shared helper lemmas -/

/-- The selection fold of `challengeSpecForAuthorization`, generalized over
the accumulator: it returns the last usable option of the list, falling
back to the accumulator. -/
theorem selectChallenge_foldl_eq (cfg : SolverConfig) (acmeSpec : AcmeIssuerSpec)
    (chs : List AcmeChallenge) (acc : Option AcmeChallenge) :
    chs.foldl (fun acc ch => if challengeUsable cfg acmeSpec ch then some ch else acc) acc
      = (chs.reverse.find? (challengeUsable cfg acmeSpec)).or acc := by
  induction chs generalizing acc with
  | nil => simp
  | cons ch rest ih =>
    simp only [List.foldl_cons, List.reverse_cons, List.find?_append, ih]
    cases h : rest.reverse.find? (challengeUsable cfg acmeSpec) <;>
      cases hu : challengeUsable cfg acmeSpec ch <;>
        simp [List.find?, hu, Option.or]

/-- The selection loop returns the first usable option of the reversed
offer list, that is, the last usable option in server order. -/
theorem selectChallenge_eq_reverse_find (cfg : SolverConfig) (acmeSpec : AcmeIssuerSpec)
    (chs : List AcmeChallenge) :
    selectChallenge cfg acmeSpec chs = chs.reverse.find? (challengeUsable cfg acmeSpec) := by
  rw [selectChallenge, selectChallenge_foldl_eq]
  simp

/-- Any option the selection loop picks is usable. -/
theorem selectChallenge_usable (cfg : SolverConfig) (acmeSpec : AcmeIssuerSpec)
    (chs : List AcmeChallenge) (ch : AcmeChallenge)
    (h : selectChallenge cfg acmeSpec chs = some ch) :
    challengeUsable cfg acmeSpec ch = true := by
  rw [selectChallenge_eq_reverse_find] at h
  exact List.find?_some h

/-- Any option the selection loop picks has type http-01 or dns-01. -/
theorem selectChallenge_type (cfg : SolverConfig) (acmeSpec : AcmeIssuerSpec)
    (chs : List AcmeChallenge) (ch : AcmeChallenge)
    (h : selectChallenge cfg acmeSpec chs = some ch) :
    ch.type = "http-01" ∨ ch.type = "dns-01" := by
  have hu := selectChallenge_usable cfg acmeSpec chs ch h
  simp only [challengeUsable, Bool.or_eq_true, Bool.and_eq_true, decide_eq_true_eq] at hu
  rcases hu with ⟨⟨h1, _⟩, _⟩ | ⟨⟨h1, _⟩, _⟩
  · exact Or.inl h1
  · exact Or.inr h1

/-- The configuration scan is the first-match `find?` over the entries. -/
theorem findSolver_eq_find? (key : String) (cfgs : List DomainSolverConfig) :
    findSolver key cfgs
      = (cfgs.find? (fun d => d.domains.contains key)).map DomainSolverConfig.solverConfig := by
  induction cfgs with
  | nil => rfl
  | cons d rest ih =>
    cases h : d.domains.contains key with
    | true =>
      rw [List.find?_cons_of_pos (p := fun (c : DomainSolverConfig) => c.domains.contains key) _ h]
      show (if d.domains.contains key then some d.solverConfig else findSolver key rest) = _
      rw [if_pos (by simpa using h)]
      rfl
    | false =>
      rw [List.find?_cons_of_neg (p := fun (c : DomainSolverConfig) => c.domains.contains key) _
            (fun hc => absurd (by simpa using hc) (by simpa using h)), ← ih]
      show (if d.domains.contains key then some d.solverConfig else findSolver key rest) = _
      rw [if_neg (fun hc => absurd (by simpa using hc) (by simpa using h))]

/-! ### Claim theorems -/

/-- Claim C1: among the offered challenge options, the Challenge Spec
Builder selects the one found first in the reversed server-order list of
usable options, that is, the last usable option in server-provided order;
in particular, for an authorization offering dns-01 then http-01 with both
types enabled in the solver configuration and the issuer capabilities, it
selects http-01. -/
theorem challengeSpec_last_match_wins :
    (∀ (cfg : SolverConfig) (acmeSpec : AcmeIssuerSpec) (chs : List AcmeChallenge),
       selectChallenge cfg acmeSpec chs = chs.reverse.find? (challengeUsable cfg acmeSpec))
    ∧ (challengeSpecForAuthorization c1Client c1Issuer c1Order c1Authz).2
        = Except.ok c1ExpectedSpec
    ∧ c1ExpectedSpec.type = "http-01" :=
  ⟨selectChallenge_eq_reverse_find, rfl, rfl⟩

/-- Claim C4: whenever the state written by `setOrderState` is classified
as a failure state by the external predicate, the failure timestamp is
overwritten with the current time, and a second such write overwrites it
again with the later time. -/
theorem setOrderState_overwrites_failure_time (iFail : State → Bool) (t1 t2 : Nat)
    (st : OrderStatus) (s : State) (h : iFail s = true) :
    (setOrderState iFail t1 st s).failureTime = some t1 ∧
    (setOrderState iFail t2 (setOrderState iFail t1 st s) s).failureTime = some t2 := by
  simp [setOrderState, h]

/-- Witness for C4: an Order already in the Failed state, re-synced at
times 1 and then 2, has its failure timestamp refreshed on both calls. -/
theorem setOrderState_overwrites_failure_time_witness :
    (setOrderState failurePred 1 failedStatus cmapi.Failed).failureTime = some 1 ∧
    (setOrderState failurePred 2
        (setOrderState failurePred 1 failedStatus cmapi.Failed) cmapi.Failed).failureTime = some 2 :=
  setOrderState_overwrites_failure_time failurePred 1 2 failedStatus cmapi.Failed (by decide)

/-- Claim C7: the solver-configuration lookup key is the identifier value,
wildcard-prefixed exactly when the authorization is a wildcard one; the
configured entries are scanned in order and the first whose domain set
contains the key wins; otherwise the configuration-not-found error is
returned. -/
theorem solverConfiguration_first_match (cfgs : List DomainSolverConfig) (authz : Authorization) :
    solverConfigurationForAuthorization cfgs authz =
      match cfgs.find? (fun d => d.domains.contains
          (if authz.wildcard then "*." ++ authz.identifier.value else authz.identifier.value)) with
      | some d => Except.ok d.solverConfig
      | none => Except.error (GoError.msg ("solver configuration for domain " ++
          (if authz.wildcard then "*." ++ authz.identifier.value else authz.identifier.value) ++
          " not found. Ensure you have configured a challenge mechanism using the certificate.spec.acme.config field")) := by
  simp only [solverConfigurationForAuthorization]
  rw [findSolver_eq_find?]
  cases cfgs.find? (fun d => d.domains.contains
      (if authz.wildcard then "*." ++ authz.identifier.value else authz.identifier.value)) <;> rfl

/-- Claim C9: a state transition to a state not classified as a failure
state leaves the failure timestamp unchanged. -/
theorem setOrderState_preserves_failure_time (iFail : State → Bool) (now : Nat)
    (st : OrderStatus) (s : State) (h : iFail s = false) :
    (setOrderState iFail now st s).failureTime = st.failureTime := by
  simp [setOrderState, h]

/-- Witness for C9: leaving the Failed state for Valid keeps the failure
timestamp recorded earlier. -/
theorem setOrderState_preserves_failure_time_witness :
    (setOrderState failurePred 5 failedStatus cmapi.Valid).failureTime = some 0 :=
  setOrderState_preserves_failure_time failurePred 5 failedStatus cmapi.Valid (by decide)

/-! ### Fixtures for the Sync-level claims -/

/-- Recognizer for challenge-creation events. -/
def isCreateChallengeEvent : CallEvent → Bool
  | .createChallenge _ => true
  | _ => false

/-- A planned challenge spec for a given domain. -/
def c2Spec (d : String) : ChallengeSpec :=
  { authzURL := "https://acme.example/authz/" ++ d, type := "http-01",
    url := "https://acme.example/chal/" ++ d, dnsName := d, token := "tok-" ++ d,
    key := "key-" ++ d, config := solverBoth, wildcard := false, issuerRef := "letsencrypt" }

/-- A Pending Order with three planned challenges. -/
def c2Order : Order :=
  { name := "order-2", ns := "default",
    spec := { dnsNames := ["a.com", "b.com", "c.com"], commonName := "", csr := "csr",
              issuerRef := "letsencrypt", config := [] },
    status := { url := "https://acme.example/order/2", finalizeURL := "https://acme.example/fin/2",
                certificateURL := "", state := cmapi.Pending,
                challenges := [c2Spec "a.com", c2Spec "b.com", c2Spec "c.com"],
                failureTime := none } }

/-- An existing Challenge matching the second planned spec of `c2Order`. -/
def c2Existing : Challenge :=
  { name := "order-2-1", labels := challengeLabelsForOrder c2Order, ownerOrder := "order-2",
    spec := c2Spec "b.com", status := cmapi.Pending }

/-- An environment whose lister returns exactly `c2Existing` and whose
writers succeed. -/
def c2Env : Env :=
  { getGenericIssuer := fun _ _ => .ok c1Issuer,
    clientForIssuer := fun _ => .ok c1Client,
    listChallenges := fun _ _ => .ok [c2Existing],
    createChallenge := fun _ ch => .ok ch,
    updateOrder := fun _ => none }

/-- The live order fetched in the Ready-state fixtures. -/
def c3AcmeOrder : AcmeOrder :=
  { url := "https://acme.example/order/3", status := cmapi.Processing,
    finalizeURL := "https://acme.example/fin/3", certificateURL := "", authorizations := [] }

/-- A client whose finalize fails with a transient error while the order
fetch succeeds. -/
def c3Client : AcmeClient :=
  { createOrder := fun _ => .error (.msg "unused"),
    getOrder := fun _ => .ok c3AcmeOrder,
    getAuthorization := fun _ => .error (.msg "unused"),
    finalizeOrder := fun _ _ => .error (.msg "finalize failed"),
    http01ChallengeResponse := fun _ => .error (.msg "unused"),
    dns01ChallengeRecord := fun _ => .error (.msg "unused") }

/-- Environment around `c3Client`. -/
def c3Env : Env :=
  { getGenericIssuer := fun _ _ => .ok c1Issuer,
    clientForIssuer := fun _ => .ok c3Client,
    listChallenges := fun _ _ => .ok [],
    createChallenge := fun _ ch => .ok ch,
    updateOrder := fun _ => none }

/-- An Order in the Ready state. -/
def c3Order : Order :=
  { name := "order-3", ns := "default",
    spec := { dnsNames := ["a.com"], commonName := "", csr := "csr",
              issuerRef := "letsencrypt", config := [] },
    status := { url := "https://acme.example/order/3", finalizeURL := "https://acme.example/fin/3",
                certificateURL := "", state := cmapi.Ready, challenges := [],
                failureTime := none } }

/-- The status of `c3Order` after projecting `c3AcmeOrder`. -/
def c3ProjStatus : OrderStatus :=
  { url := "https://acme.example/order/3", finalizeURL := "https://acme.example/fin/3",
    certificateURL := "", state := cmapi.Processing, challenges := [], failureTime := none }

/-- An Order with non-empty URL in the Valid (terminal) state. -/
def c5Order : Order :=
  { name := "order-5", ns := "default",
    spec := { dnsNames := ["a.com"], commonName := "", csr := "csr",
              issuerRef := "letsencrypt", config := [] },
    status := { url := "https://acme.example/order/5", finalizeURL := "", certificateURL := "",
                state := cmapi.Valid, challenges := [], failureTime := none } }

/-- An environment whose issuer lookup fails. -/
def c5FailEnv : Env :=
  { getGenericIssuer := fun _ _ => .error (.msg "issuer not found"),
    clientForIssuer := fun _ => .error (.msg "unused"),
    listChallenges := fun _ _ => .error (.msg "unused"),
    createChallenge := fun _ _ => .error (.msg "unused"),
    updateOrder := fun _ => none }

/-- The live order fetched in the update-error fixtures: its projection
differs from the persisted status. -/
def c6AcmeOrder : AcmeOrder :=
  { url := "https://acme.example/order/6", status := cmapi.Valid,
    finalizeURL := "https://acme.example/fin/6",
    certificateURL := "https://acme.example/cert/6", authorizations := [] }

/-- A client whose finalize and order fetch both succeed. -/
def c6Client : AcmeClient :=
  { createOrder := fun _ => .error (.msg "unused"),
    getOrder := fun _ => .ok c6AcmeOrder,
    getAuthorization := fun _ => .error (.msg "unused"),
    finalizeOrder := fun _ _ => .ok (),
    http01ChallengeResponse := fun _ => .error (.msg "unused"),
    dns01ChallengeRecord := fun _ => .error (.msg "unused") }

/-- An environment whose status update fails. -/
def c6Env : Env :=
  { getGenericIssuer := fun _ _ => .ok c1Issuer,
    clientForIssuer := fun _ => .ok c6Client,
    listChallenges := fun _ _ => .ok [],
    createChallenge := fun _ ch => .ok ch,
    updateOrder := fun _ => some (.msg "the status update failed") }

/-- A Ready Order reconciled against `c6Env`. -/
def c6Order : Order :=
  { name := "order-6", ns := "default",
    spec := { dnsNames := ["a.com"], commonName := "", csr := "csr",
              issuerRef := "letsencrypt", config := [] },
    status := { url := "https://acme.example/order/6", finalizeURL := "https://acme.example/fin/6",
                certificateURL := "", state := cmapi.Ready, challenges := [],
                failureTime := none } }

/-- The same Order in the Unknown state (for the amended-C6 witness). -/
def c6bOrder : Order :=
  { c6Order with status := { c6Order.status with state := cmapi.Unknown } }

/-- The status of `c6Order` and `c6bOrder` after projecting `c6AcmeOrder`. -/
def c6ProjStatus : OrderStatus :=
  { url := "https://acme.example/order/6", finalizeURL := "https://acme.example/fin/6",
    certificateURL := "https://acme.example/cert/6", state := cmapi.Valid, challenges := [],
    failureTime := none }

/-- The remote order returned for the creation fixtures. -/
def c8AcmeOrder : AcmeOrder :=
  { url := "https://acme.example/order/8", status := cmapi.Pending,
    finalizeURL := "https://acme.example/fin/8", certificateURL := "",
    authorizations := ["https://acme.example/authz/8"] }

/-- A client for the order-creation fixtures: remote creation succeeds,
every authorization fetch fails. -/
def c8Client : AcmeClient :=
  { createOrder := fun _ => .ok c8AcmeOrder,
    getOrder := fun _ => .error (.msg "unused"),
    getAuthorization := fun _ => .error (.msg "authorization fetch failed"),
    finalizeOrder := fun _ _ => .error (.msg "unused"),
    http01ChallengeResponse := fun _ => .error (.msg "unused"),
    dns01ChallengeRecord := fun _ => .error (.msg "unused") }

/-- A fresh Order with empty status URL. -/
def c8Order : Order :=
  { name := "order-8", ns := "default",
    spec := { dnsNames := ["a.com"], commonName := "", csr := "csr",
              issuerRef := "letsencrypt",
              config := [{ domains := ["a.com"], solverConfig := solverBoth }] },
    status := emptyStatus }

/-! ### Remaining shared helper lemmas -/

/-- Membership in the creation scan, generalized over the running index:
the selected pairs are exactly the planned entries strictly before the
first planned entry that has an existing Challenge with the same DNS
name. -/
theorem challengesToCreateGo_mem (existing : List Challenge) (planned : List ChallengeSpec)
    (n i : Nat) (s : ChallengeSpec) :
    (i, s) ∈ challengesToCreateGo existing n planned ↔
      ∃ j, i = n + j ∧ planned[j]? = some s ∧
        j < planned.findIdx (fun sp => existing.any (fun ch => ch.spec.dnsName = sp.dnsName)) := by
  induction planned generalizing n with
  | nil => simp [challengesToCreateGo]
  | cons a rest ih =>
    cases h : existing.any (fun ch => ch.spec.dnsName = a.dnsName) with
    | true =>
      have hred : challengesToCreateGo existing n (a :: rest) = [] := by
        show (if existing.any (fun ch => ch.spec.dnsName = a.dnsName)
            then ([] : List (Nat × ChallengeSpec))
            else (n, a) :: challengesToCreateGo existing (n + 1) rest) = []
        rw [if_pos (by simp [h])]
      have hidx : List.findIdx
          (fun sp => existing.any (fun ch => ch.spec.dnsName = sp.dnsName)) (a :: rest) = 0 := by
        rw [List.findIdx_cons]
        simp [h]
      rw [hred, hidx]
      simp
    | false =>
      have hred : challengesToCreateGo existing n (a :: rest)
          = (n, a) :: challengesToCreateGo existing (n + 1) rest := by
        show (if existing.any (fun ch => ch.spec.dnsName = a.dnsName)
            then ([] : List (Nat × ChallengeSpec))
            else (n, a) :: challengesToCreateGo existing (n + 1) rest) = _
        rw [if_neg (by simp [h])]
      have hidx : List.findIdx
          (fun sp => existing.any (fun ch => ch.spec.dnsName = sp.dnsName)) (a :: rest)
          = List.findIdx
              (fun sp => existing.any (fun ch => ch.spec.dnsName = sp.dnsName)) rest + 1 := by
        rw [List.findIdx_cons]
        simp [h]
      rw [hred, hidx]
      simp only [List.mem_cons, ih, Prod.mk.injEq]
      constructor
      · rintro (⟨rfl, rfl⟩ | ⟨j, rfl, hj, hlt⟩)
        · exact ⟨0, by omega, by simp, by omega⟩
        · exact ⟨j + 1, by omega, by simpa using hj, by omega⟩
      · rintro ⟨j, hij, hj, hlt⟩
        cases j with
        | zero =>
          left
          simp only [List.getElem?_cons_zero, Option.some.injEq] at hj
          exact ⟨by omega, hj.symm⟩
        | succ j =>
          right
          exact ⟨j, by omega, by simpa using hj, by omega⟩

/-! ### Remaining claim theorems -/

/-- Claim C2: the challenge-creation selection of `Sync` picks exactly the
planned entries whose index precedes the index of the first planned entry
for which an existing Challenge with the same DNS name is found; in a
concrete Pending-state run where the second planned spec already has a
matching Challenge, only the first spec is created. -/
theorem Sync_scan_stops_at_first_existing :
    (∀ (planned : List ChallengeSpec) (existing : List Challenge) (i : Nat) (s : ChallengeSpec),
       (i, s) ∈ challengesToCreate planned existing ↔
         planned[i]? = some s ∧
           i < planned.findIdx (fun sp => existing.any (fun ch => ch.spec.dnsName = sp.dnsName)))
    ∧ (Sync terminalPred failurePred 0 c2Env c2Order).1.filter isCreateChallengeEvent
        = [CallEvent.createChallenge (buildChallenge 0 c2Order (c2Spec "a.com"))] := by
  constructor
  · intro planned existing i s
    rw [challengesToCreate, challengesToCreateGo_mem]
    constructor
    · rintro ⟨j, rfl, hj, hlt⟩
      simpa using ⟨hj, hlt⟩
    · rintro ⟨h1, h2⟩
      exact ⟨i, by omega, h1, h2⟩
  · rfl

/-- Claim C3: for a Ready-state Order (non-empty URL, not terminal), the
body of `Sync` calls finalize and then always runs the status
synchronizer, whatever finalize returned; a status-sync failure is
returned (masking the finalize error), otherwise the finalize error is
returned if there was one, and success otherwise. -/
theorem Sync_ready_always_syncs_after_finalize (isFinal iFail : State → Bool) (now : Nat)
    (env : Env) (o : Order) (issuer : GenericIssuer) (cl : AcmeClient)
    (tr : List CallEvent) (st : OrderStatus) (res : Option GoError)
    (hIss : env.getGenericIssuer o.spec.issuerRef o.ns = .ok issuer)
    (hCl : env.clientForIssuer issuer = .ok cl)
    (hURL : ¬ o.status.url = "")
    (hNF : isFinal o.status.state = false)
    (hReady : o.status.state = cmapi.Ready)
    (hSync : syncOrderStatus iFail now cl o.status = (tr, st, res)) :
    syncBody isFinal iFail now env o =
      ([CallEvent.getGenericIssuer o.spec.issuerRef o.ns, CallEvent.clientForIssuer issuer.name,
        CallEvent.finalizeOrder o.status.finalizeURL] ++ tr,
       st,
       match res with
       | some eU => some (GoError.wrap "error syncing order status" eU)
       | none =>
         match cl.finalizeOrder o.status.finalizeURL o.spec.csr with
         | .error e => some (GoError.wrap "error finalizing order" e)
         | .ok _ => none) := by
  have hNF2 : isFinal cmapi.Ready = false := hReady ▸ hNF
  simp only [syncBody, hIss, hCl, hSync, hURL, hReady, cmapi.Ready, cmapi.Unknown]
  have hNF3 : isFinal "ready" = false := hNF2
  simp only [hNF3, Bool.false_eq_true, if_false]
  cases res with
  | some eU => rfl
  | none => cases cl.finalizeOrder o.status.finalizeURL o.spec.csr <;> rfl

/-- Witness for C3: a Ready Order whose finalize fails while the status
sync succeeds: the sync still runs (its fetch is in the trace, its
projected status is adopted) and the finalize error is returned. -/
theorem Sync_ready_always_syncs_witness :
    syncBody terminalPred failurePred 0 c3Env c3Order =
      ([CallEvent.getGenericIssuer "letsencrypt" "default", CallEvent.clientForIssuer "letsencrypt",
        CallEvent.finalizeOrder "https://acme.example/fin/3",
        CallEvent.getOrder "https://acme.example/order/3"],
       c3ProjStatus,
       some (GoError.wrap "error finalizing order" (GoError.msg "finalize failed"))) :=
  Sync_ready_always_syncs_after_finalize terminalPred failurePred 0 c3Env c3Order c1Issuer c3Client
    [CallEvent.getOrder "https://acme.example/order/3"] c3ProjStatus none
    rfl rfl (by decide) (by decide) rfl rfl

/-- Claim C5 counterexample: a terminal-state Order with non-empty URL
still causes external collaborator calls (the issuer lookup and the ACME
client construction), so `Sync` does not make zero external calls; and
when the issuer lookup fails, `Sync` even returns an error. -/
theorem Sync_terminal_makes_external_calls :
    (Sync terminalPred failurePred 0 c2Env c5Order).1
        = [CallEvent.getGenericIssuer "letsencrypt" "default",
           CallEvent.clientForIssuer "letsencrypt"]
    ∧ (Sync terminalPred failurePred 0 c2Env c5Order).1 ≠ []
    ∧ (Sync terminalPred failurePred 0 c5FailEnv c5Order).2.2.isSome = true := by
  refine ⟨rfl, by decide, rfl⟩

/-- Claim C5 (amended): for a terminal-state Order with non-empty URL,
after the unconditional issuer lookup and ACME client construction
succeed, `Sync` performs no further external calls, leaves the status
unchanged and returns no error. -/
theorem Sync_terminal_noop_after_issuer_resolution (isFinal iFail : State → Bool) (now : Nat)
    (env : Env) (o : Order) (issuer : GenericIssuer) (cl : AcmeClient)
    (hIss : env.getGenericIssuer o.spec.issuerRef o.ns = .ok issuer)
    (hCl : env.clientForIssuer issuer = .ok cl)
    (hURL : ¬ o.status.url = "")
    (hFin : isFinal o.status.state = true) :
    Sync isFinal iFail now env o =
      ([CallEvent.getGenericIssuer o.spec.issuerRef o.ns, CallEvent.clientForIssuer issuer.name],
       o.status, none) := by
  simp [Sync, syncBody, hIss, hCl, hURL, hFin]

/-- Witness for the amended C5: the concrete terminal Order `c5Order`
under `c2Env` triggers exactly the two collaborator calls and succeeds. -/
theorem Sync_terminal_noop_witness :
    Sync terminalPred failurePred 0 c2Env c5Order =
      ([CallEvent.getGenericIssuer "letsencrypt" "default",
        CallEvent.clientForIssuer "letsencrypt"],
       c5Order.status, none) :=
  Sync_terminal_noop_after_issuer_resolution terminalPred failurePred 0 c2Env c5Order c1Issuer
    c1Client rfl rfl (by decide) (by decide)

/-- Claim C6 counterexample: a run in which the status changed, the store
update was attempted and failed, and yet `Sync` returns no error, because
the deferred handler drops the update failure when the domain error is
nil. -/
theorem Sync_swallows_update_error_when_domain_ok :
    (Sync terminalPred failurePred 0 c6Env c6Order).2.2 = none
    ∧ (Sync terminalPred failurePred 0 c6Env c6Order).2.1 ≠ c6Order.status
    ∧ CallEvent.updateOrder c6ProjStatus ∈ (Sync terminalPred failurePred 0 c6Env c6Order).1
    ∧ c6Env.updateOrder { c6Order with status := c6ProjStatus }
        = some (GoError.msg "the status update failed") := by
  refine ⟨rfl, by decide, by decide, rfl⟩

/-- Claim C6 (amended): when the status changed, the deferred handler
issues the store update; a non-nil domain error is aggregated with the
update error so that neither is lost, but a nil domain error is returned
as success with the update error discarded. -/
theorem Sync_aggregates_update_error_with_domain_error (isFinal iFail : State → Bool) (now : Nat)
    (env : Env) (o : Order) (tr : List CallEvent) (st : OrderStatus) (res : Option GoError)
    (hBody : syncBody isFinal iFail now env o = (tr, st, res))
    (hNe : ¬ o.status = st) :
    Sync isFinal iFail now env o =
      (tr ++ [CallEvent.updateOrder st], st,
       match res with
       | some e => newAggregate [some e, env.updateOrder { o with status := st }]
       | none => none) := by
  simp only [Sync, hBody, hNe, if_false]
  cases res <;> rfl

/-- Witness for the amended C6: an Unknown-state Order whose re-sync
produces the forced retry error and a changed status, under an
environment whose update fails: both errors appear in one aggregate. -/
theorem Sync_aggregates_update_error_witness :
    Sync terminalPred failurePred 0 c6Env c6bOrder =
      ([CallEvent.getGenericIssuer "letsencrypt" "default",
        CallEvent.clientForIssuer "letsencrypt",
        CallEvent.getOrder "https://acme.example/order/6",
        CallEvent.updateOrder c6ProjStatus],
       c6ProjStatus,
       some (GoError.aggregate
         [GoError.msg "updated unknown order state. Retrying processing after applying back-off",
          GoError.msg "the status update failed"])) :=
  Sync_aggregates_update_error_with_domain_error terminalPred failurePred 0 c6Env c6bOrder
    [CallEvent.getGenericIssuer "letsencrypt" "default",
     CallEvent.clientForIssuer "letsencrypt",
     CallEvent.getOrder "https://acme.example/order/6"]
    c6ProjStatus
    (some (GoError.msg "updated unknown order state. Retrying processing after applying back-off"))
    rfl (by decide)

/-- Claim C8: when the remote order creation succeeded but the
authorization loop fails, `createOrder` returns the error with the
planned-challenge list left exactly as it was (unset for a fresh Order),
while the projected status already carries the remote order URL. -/
theorem createOrder_partial_failure (iFail : State → Bool) (now : Nat) (cl : AcmeClient)
    (issuer : GenericIssuer) (o : Order) (acmeOrder : AcmeOrder) (tr : List CallEvent)
    (e : GoError)
    (hURL : o.status.url = "")
    (hCreate : cl.createOrder (orderIdentifiers o) = .ok acmeOrder)
    (hFail : buildChals cl issuer o acmeOrder.authorizations = (tr, .error e)) :
    createOrder iFail now cl issuer o =
      (CallEvent.createOrderCall (orderIdentifiers o) :: tr,
       setOrderStatus iFail now o.status acmeOrder, some e)
    ∧ (setOrderStatus iFail now o.status acmeOrder).challenges = o.status.challenges
    ∧ (setOrderStatus iFail now o.status acmeOrder).url = acmeOrder.url := by
  refine ⟨?_, ?_, ?_⟩
  · simp only [createOrder, hURL, if_true, hCreate, hFail]
  · simp only [setOrderStatus, setOrderState]
    split <;> rfl
  · simp only [setOrderStatus, setOrderState]

/-- Witness for C8: a fresh Order whose remote creation succeeds and whose
single authorization fetch fails: the error is returned, the challenge
list stays empty, the URL is already projected. -/
theorem createOrder_partial_failure_witness :
    createOrder failurePred 0 c8Client c1Issuer c8Order =
      ([CallEvent.createOrderCall ["a.com"],
        CallEvent.getAuthorization "https://acme.example/authz/8"],
       setOrderStatus failurePred 0 c8Order.status c8AcmeOrder,
       some (GoError.msg "authorization fetch failed"))
    ∧ (setOrderStatus failurePred 0 c8Order.status c8AcmeOrder).challenges = []
    ∧ (setOrderStatus failurePred 0 c8Order.status c8AcmeOrder).url
        = "https://acme.example/order/8" :=
  createOrder_partial_failure failurePred 0 c8Client c1Issuer c8Order c8AcmeOrder
    [CallEvent.getAuthorization "https://acme.example/authz/8"]
    (GoError.msg "authorization fetch failed") rfl rfl rfl

/-- Claim C10: any challenge spec the builder produces has type http-01 or
dns-01, and on any option the selection loop picks, `keyForChallenge`
takes one of the two client branches, never the unsupported-type branch. -/
theorem challengeSpec_type_supported :
    (∀ (cl : AcmeClient) (issuer : GenericIssuer) (o : Order) (authz : Authorization)
       (tr : List CallEvent) (cs : ChallengeSpec),
       challengeSpecForAuthorization cl issuer o authz = (tr, .ok cs) →
       cs.type = "http-01" ∨ cs.type = "dns-01")
    ∧ (∀ (cfg : SolverConfig) (acmeSpec : AcmeIssuerSpec) (chs : List AcmeChallenge)
       (ch : AcmeChallenge) (cl : AcmeClient),
       selectChallenge cfg acmeSpec chs = some ch →
       keyForChallenge cl ch
           = ([CallEvent.http01Response ch.token], cl.http01ChallengeResponse ch.token)
       ∨ keyForChallenge cl ch
           = ([CallEvent.dns01Record ch.token], cl.dns01ChallengeRecord ch.token)) := by
  constructor
  · intro cl issuer o authz tr cs h
    unfold challengeSpecForAuthorization at h
    split at h
    · simp at h
    · split at h
      · simp at h
      · split at h
        · simp at h
        · rename_i acmeSpec challenge hSel
          dsimp only at h
          cases hk : (keyForChallenge cl challenge).2 with
          | error e =>
            rw [hk] at h
            simp at h
          | ok key =>
            rw [hk] at h
            simp only [Prod.mk.injEq, Except.ok.injEq] at h
            have hty := selectChallenge_type _ _ _ _ hSel
            rw [← h.2]
            exact hty
  · intro cfg acmeSpec chs ch cl hSel
    rcases selectChallenge_type cfg acmeSpec chs ch hSel with hty | hty
    · left
      rw [keyForChallenge, if_pos hty]
    · right
      rw [keyForChallenge, if_neg (by rw [hty]; decide), if_pos hty]

/-- Witness for C10: the concrete spec built for `c1Authz` has a supported
type. -/
theorem challengeSpec_type_supported_witness :
    c1ExpectedSpec.type = "http-01" ∨ c1ExpectedSpec.type = "dns-01" :=
  challengeSpec_type_supported.1 c1Client c1Issuer c1Order c1Authz c1Trace c1ExpectedSpec rfl

end CertManager
